import Mathlib

/-!
Shallow embedding of the JSON language-pack key comparison utility
(`main_backup.py`, `check_language_packs.py`, `src/main.py`).

The JSON tree, key extraction, key-set comparison, loader and report
rendering are translated from the Python source; exit codes model
`sys.exit` and implicit fall-through termination.
-/

/-- JSON tree node: object (list of key/value entries in insertion order),
array, or scalar (string, number, boolean, null). -/
inductive Json where
  | obj : List (String × Json) → Json
  | arr : List Json → Json
  | str : String → Json
  | num : Int → Json
  | bool : Bool → Json
  | null : Json

/-- The dotted key built by the source line
`full_key = f"{prefix}.{key}" if prefix else key`. -/
def full_key_of (pfx key : String) : String :=
  if pfx = "" then key else pfx ++ "." ++ key

mutual
/-- The per-entry dispatch of `extract_keys` (`main_backup.py` lines
40-45): `isinstance(value, dict)` recurses with the full key as the new
prefix, any other value adds the full key itself. -/
def extractKeysVal : Json → String → Finset String
  | Json.obj entries, full_key => extractKeysList entries full_key
  | _, full_key => {full_key}

/-- Body of `extract_keys` on an object's entry list (`main_backup.py`
lines 31-47): for each entry, union the keys contributed by its value
into the accumulator. -/
def extractKeysList : List (String × Json) → String → Finset String
  | [], _ => ∅
  | (key, value) :: rest, pfx =>
    extractKeysVal value (full_key_of pfx key) ∪ extractKeysList rest pfx
end

/-- `extract_keys(data, prefix)`: Python iterates `data.items()`, which
raises `AttributeError` when `data` is not a dict; modelled by `none`. -/
def extract_keys (data : Json) (pfx : String) : Option (Finset String) :=
  match data with
  | Json.obj entries => some (extractKeysList entries pfx)
  | _ => none

/-- Whether a JSON value is an object (Python `isinstance(value, dict)`). -/
def isObj : Json → Bool
  | Json.obj _ => true
  | _ => false

mutual
/-- Modelled from the spec: the relative addresses of the leaf
(non-object) values inside a JSON value — a leaf sits at the empty
address, an object's leaves sit below its entries. -/
def leafAddrsVal : Json → List (List String)
  | Json.obj entries => leafAddrsList entries
  | _ => [[]]

/-- Modelled from the spec: the leaf addresses of an object's entry
list, each address being the list of ancestor object keys down to a leaf
value; empty objects contribute no address. -/
def leafAddrsList : List (String × Json) → List (List String)
  | [] => []
  | (key, value) :: rest =>
    (leafAddrsVal value).map (fun addr => key :: addr) ++ leafAddrsList rest
end

/-- Modelled from the spec: joining ancestor object keys with `.`. -/
def joinDot : List String → String
  | [] => ""
  | [k] => k
  | k :: rest => k ++ "." ++ joinDot rest

/-- The key-set comparator of `compare_json_keys` (`main_backup.py`
lines 62-65): `(keys1 - keys2, keys2 - keys1, keys1 & keys2)`. -/
def compare_keys (keysA keysB : Finset String) :
    Finset String × Finset String × Finset String :=
  (keysA \ keysB, keysB \ keysA, keysA ∩ keysB)

/-- Outcome of opening and parsing one input file, abstracting the file
system and the stdlib JSON parser: the file may be missing
(`FileNotFoundError`), syntactically invalid (`json.JSONDecodeError`
with a diagnostic), unreadable (any other `Exception`), or parsed. -/
inductive FileContent where
  | missing : FileContent
  | malformed : String → FileContent
  | unreadable : String → FileContent
  | parsed : Json → FileContent

/-- Whether loading this content fails. -/
def isFailure : FileContent → Bool
  | FileContent.parsed _ => false
  | _ => true

/-- `load_json_file` (`main_backup.py` lines 14-29): on any failure it
prints a message naming the file and calls `sys.exit(1)`, modelled as
`Except.error (message, exit code)`; on success it returns the tree. -/
def load_json_file (file_path : String) (content : FileContent) :
    Except (String × Nat) Json :=
  match content with
  | FileContent.missing =>
    Except.error ("错误：文件 \x27" ++ file_path ++ "\x27 不存在", 1)
  | FileContent.malformed diag =>
    Except.error ("错误：文件 \x27" ++ file_path ++ "\x27 不是有效的JSON格式: " ++ diag, 1)
  | FileContent.unreadable diag =>
    Except.error ("错误：读取文件 \x27" ++ file_path ++ "\x27 时发生错误: " ++ diag, 1)
  | FileContent.parsed data => Except.ok data

/-- The message printed by `load_json_file` on a failing content. -/
def load_error_msg (file_path : String) (content : FileContent) : String :=
  match content with
  | FileContent.missing => "错误：文件 \x27" ++ file_path ++ "\x27 不存在"
  | FileContent.malformed diag =>
    "错误：文件 \x27" ++ file_path ++ "\x27 不是有效的JSON格式: " ++ diag
  | FileContent.unreadable diag =>
    "错误：读取文件 \x27" ++ file_path ++ "\x27 时发生错误: " ++ diag
  | FileContent.parsed _ => ""

/-- How a run of `compare_json_keys` can abort: `sys.exit` raised inside
`load_json_file` (a `SystemExit`, not caught by `except Exception`), or
the `AttributeError` raised by `extract_keys` on a non-dict tree. -/
inductive RunError where
  | sysExit : String → Nat → RunError
  | attrError : RunError

/-- `compare_json_keys(file1, file2)` (`main_backup.py` lines 49-67):
load both files, extract both key sets, return the difference triple.
Either load may abort the process; extraction on a non-object tree
raises. -/
def compare_json_keys (file1 file2 : String) (c1 c2 : FileContent) :
    Except RunError (Finset String × Finset String × Finset String) :=
  match load_json_file file1 c1 with
  | Except.error (msg, code) => Except.error (RunError.sysExit msg code)
  | Except.ok data1 =>
    match load_json_file file2 c2 with
    | Except.error (msg, code) => Except.error (RunError.sysExit msg code)
    | Except.ok data2 =>
      match extract_keys data1 "", extract_keys data2 "" with
      | some keys1, some keys2 =>
        Except.ok (keys1 \ keys2, keys2 \ keys1, keys1 ∩ keys2)
      | _, _ => Except.error RunError.attrError

/-- Python `c * n` on a one-character string. -/
def repeatChar (c : Char) (n : Nat) : String :=
  String.mk (List.replicate n c)

/-- `print_comparison_results` (`main_backup.py` lines 69-110), as the list
of lines it prints. The only-sets and common set are passed as the
iteration orders the Python `set`s happen to yield; the `for key in
only_in_file1` loops emit them verbatim, with no sorting. -/
def print_comparison_results (file1 file2 : String)
    (only_in_file1 only_in_file2 common_keys : List String) : List String :=
  let title := "JSON Key 比较报告: " ++ file1 ++ " vs " ++ file2
  [title, repeatChar '=' title.length, "", "统计信息:",
    "  " ++ file1 ++ " 总key数: " ++ toString (only_in_file1.length + common_keys.length),
    "  " ++ file2 ++ " 总key数: " ++ toString (only_in_file2.length + common_keys.length),
    "  共有key数: " ++ toString common_keys.length,
    "  仅存在于 " ++ file1 ++ " 的key数: " ++ toString only_in_file1.length,
    "  仅存在于 " ++ file2 ++ " 的key数: " ++ toString only_in_file2.length,
    ""] ++
  (if only_in_file1.isEmpty then [] else
    ["仅存在于 " ++ file1 ++ " 的key:", repeatChar '-' 40] ++
    only_in_file1.map (fun key => "  " ++ key) ++ [""]) ++
  (if only_in_file2.isEmpty then [] else
    ["仅存在于 " ++ file2 ++ " 的key:", repeatChar '-' 40] ++
    only_in_file2.map (fun key => "  " ++ key) ++ [""])

/-- `JSONComparatorApp.save_comparison_report` (`src/main.py` lines
63-109), as the list of report lines. Unlike `print_comparison_results`
it iterates `sorted(only_in_file1)` and `sorted(only_in_file2)`; Python
`sorted` on strings is the lexicographic order modelled by
`List.insertionSort`. -/
def save_comparison_report (file1_name file2_name : String)
    (only_in_file1 only_in_file2 common_keys : List String) : List String :=
  ["JSON Key 比较报告: " ++ file1_name ++ " vs " ++ file2_name,
    repeatChar '=' 50, "", "统计信息:",
    "  " ++ file1_name ++ " 总key数: " ++ toString (only_in_file1.length + common_keys.length),
    "  " ++ file2_name ++ " 总key数: " ++ toString (only_in_file2.length + common_keys.length),
    "  共有key数: " ++ toString common_keys.length,
    "  仅存在于 " ++ file1_name ++ " 的key数: " ++ toString only_in_file1.length,
    "  仅存在于 " ++ file2_name ++ " 的key数: " ++ toString only_in_file2.length,
    ""] ++
  (if only_in_file1.isEmpty then [] else
    ["仅存在于 " ++ file1_name ++ " 的key:", repeatChar '-' 40] ++
    (List.insertionSort (fun a b => a ≤ b) only_in_file1).map (fun key => "  " ++ key) ++ [""]) ++
  (if only_in_file2.isEmpty then [] else
    ["仅存在于 " ++ file2_name ++ " 的key:", repeatChar '-' 40] ++
    (List.insertionSort (fun a b => a ≤ b) only_in_file2).map (fun key => "  " ++ key))

/-- `main` of `main_backup.py` (lines 121-182), returning the process
exit code: exit 1 from the up-front `Path.exists` check; a `sys.exit`
raised inside `load_json_file` (a `SystemExit`) escapes the
`except Exception` handler with its own code; any other exception in the
`try` block (the `AttributeError` of `extract_keys`) is caught and
exits 1; otherwise exit 1 if either only-set is non-empty, else the
function returns and the process exits 0. -/
def main_backup_main (file1 file2 : String) (c1 c2 : FileContent) : Nat :=
  match c1, c2 with
  | FileContent.missing, _ => 1
  | _, FileContent.missing => 1
  | _, _ =>
    match compare_json_keys file1 file2 c1 c2 with
    | Except.error (RunError.sysExit _ code) => code
    | Except.error RunError.attrError => 1
    | Except.ok (only_in_file1, only_in_file2, _) =>
      if only_in_file1 ≠ ∅ ∨ only_in_file2 ≠ ∅ then 1 else 0

/-- `main` of `check_language_packs.py` (lines 77-89), returning the
process exit code: the existence check only prints (it does not exit);
a `sys.exit` from `load_json_file` escapes the handler with its code;
any other exception exits 1; on success the result triple is discarded
and the function falls through, so the process exits 0. -/
def check_language_packs_main (file1 file2 : String) (c1 c2 : FileContent) : Nat :=
  match compare_json_keys file1 file2 c1 c2 with
  | Except.error (RunError.sysExit _ code) => code
  | Except.error RunError.attrError => 1
  | Except.ok _ => 0

/-! Helper lemmas shared by the claim theorems. -/

theorem append_dot_ne_empty (a b : String) : a ++ "." ++ b ≠ "" := by
  intro h
  have h2 := congrArg String.length h
  simp [String.length_append] at h2
  exact absurd h2.1.2 (by decide)

theorem joinDot_cons_cons (a b : String) (l : List String) :
    joinDot ((a ++ "." ++ b) :: l) = a ++ "." ++ joinDot (b :: l) := by
  cases l with
  | nil => rfl
  | cons c t => simp [joinDot, String.append_assoc]

/-- Key refinement lemma: `extract_keys` on an object entry list computes
exactly the dot-joined leaf addresses, relative to the prefix, provided
that when the prefix is empty no entry maps an empty key to an object
(the `if prefix else` sentinel collapses such prefixes). -/
theorem extractKeysList_eq_leafPaths :
    ∀ (entries : List (String × Json)) (pfx : String),
      (pfx = "" → ∀ kv ∈ entries, isObj kv.2 = true → kv.1 ≠ "") →
      extractKeysList entries pfx =
        ((leafAddrsList entries).map
          (fun addr => joinDot (if pfx = "" then addr else pfx :: addr))).toFinset := by
  refine extractKeysList.induct
    (fun v full => (isObj v = true → full ≠ "") →
      extractKeysVal v full =
        ((leafAddrsVal v).map (fun addr => joinDot (full :: addr))).toFinset)
    (fun entries pfx => (pfx = "" → ∀ kv ∈ entries, isObj kv.2 = true → kv.1 ≠ "") →
      extractKeysList entries pfx =
        ((leafAddrsList entries).map
          (fun addr => joinDot (if pfx = "" then addr else pfx :: addr))).toFinset)
    ?_ ?_ ?_ ?_
  · intro entries pfx ih hne
    have hp : pfx ≠ "" := hne rfl
    have e := ih (fun h => absurd h hp)
    simp only [extractKeysVal, leafAddrsVal, e, if_neg hp]
  · intro t full hno hne
    cases t with
    | obj es => exact absurd rfl (hno es)
    | arr l => rfl
    | str s => rfl
    | num n => rfl
    | bool b => rfl
    | null => rfl
  · intro x h
    rfl
  · intro key value rest pfx ih1 ih2 hyp
    have hfull : isObj value = true → full_key_of pfx key ≠ "" := by
      intro hv
      by_cases hp : pfx = ""
      · subst hp
        simpa [full_key_of] using hyp rfl (key, value) (List.mem_cons_self _ _) hv
      · rw [full_key_of, if_neg hp]
        exact append_dot_ne_empty pfx key
    have e1 := ih1 hfull
    have e2 := ih2 (fun hp kv hm => hyp hp kv (List.mem_cons_of_mem _ hm))
    have hfun : (fun addr => joinDot (full_key_of pfx key :: addr)) =
        (fun addr => joinDot (if pfx = "" then addr else pfx :: addr)) ∘
          (fun addr => key :: addr) := by
      funext addr
      by_cases hp : pfx = ""
      · simp [full_key_of, hp]
      · simp only [Function.comp, full_key_of, if_neg hp]
        rw [joinDot_cons_cons]
        cases addr <;> simp [joinDot]
    simp only [extractKeysList, leafAddrsList, List.map_append, List.toFinset_append,
      List.map_map, e1, e2, hfun]

/-! Claim theorems. -/

/-- C1 counterexample: for the tree with an empty top-level key over an
object, `extract_keys` does not return the set of dot-joined leaf paths:
the single leaf of the tree has dotted path `".b"` (joining the ancestor
keys `""` and `"b"` with a dot), but the code returns `{"b"}` because the
`if prefix else` sentinel treats the empty full key as absent. -/
theorem c1_counterexample :
    extract_keys (Json.obj [("", Json.obj [("b", Json.num 1)])]) "" ≠
      some (((leafAddrsList [("", Json.obj [("b", Json.num 1)])]).map joinDot).toFinset) := by
  decide

/-- C1 (amended): for every JSON object tree whose root entries do not
map the empty key to an object, `extract_keys` with the default prefix
`""` returns exactly the set of dot-joined leaf addresses — one entry
per leaf up to collisions of the joined path, and no entry for paths
ending in an empty object; in particular the tree
`{"a":{"b":1,"c":2}}` yields exactly `{"a.b","a.c"}`. -/
theorem c1_extract_keys_leaf_paths (entries : List (String × Json))
    (h : ∀ kv ∈ entries, isObj kv.2 = true → kv.1 ≠ "") :
    extract_keys (Json.obj entries) "" =
      some (((leafAddrsList entries).map joinDot).toFinset) ∧
    extract_keys (Json.obj [("a", Json.obj [("b", Json.num 1), ("c", Json.num 2)])]) "" =
      some {"a.b", "a.c"} := by
  constructor
  · have e := extractKeysList_eq_leafPaths entries "" (fun _ => h)
    simp only [if_pos rfl] at e
    simpa [extract_keys] using e
  · decide

/-- C1 witness: the amended theorem applied to the example tree. -/
theorem c1_witness :
    extract_keys (Json.obj [("a", Json.obj [("b", Json.num 1), ("c", Json.num 2)])]) "" =
      some {"a.b", "a.c"} :=
  (c1_extract_keys_leaf_paths [("a", Json.obj [("b", Json.num 1), ("c", Json.num 2)])]
    (by decide)).2

/-- C2: the key-set comparator returns exactly the triple
`(A − B, B − A, A ∩ B)`; consequently comparing a set with itself gives
`(∅, ∅, A)` and comparing with the empty set gives `(A, ∅, ∅)`; it is a
total function of its two arguments, and it is exactly the comparator
that `compare_json_keys` applies to the two extracted key sets. -/
theorem c2_compare_set_algebra (A B : Finset String) (file1 file2 : String)
    (e1 e2 : List (String × Json)) :
    compare_keys A B = (A \ B, B \ A, A ∩ B) ∧
    compare_keys A A = (∅, ∅, A) ∧
    compare_keys A ∅ = (A, ∅, ∅) ∧
    compare_json_keys file1 file2 (FileContent.parsed (Json.obj e1))
        (FileContent.parsed (Json.obj e2)) =
      Except.ok (compare_keys (extractKeysList e1 "") (extractKeysList e2 "")) := by
  refine ⟨rfl, ?_, ?_, rfl⟩ <;> simp [compare_keys]

/-- C3: every success triple of `compare_json_keys` satisfies
`onlyA ∪ common = keys(A)`, `onlyB ∪ common = keys(B)`, and the three
sets are pairwise disjoint. -/
theorem c3_comparison_invariants (file1 file2 : String)
    (e1 e2 : List (String × Json)) (onlyA onlyB common : Finset String)
    (h : compare_json_keys file1 file2 (FileContent.parsed (Json.obj e1))
        (FileContent.parsed (Json.obj e2)) = Except.ok (onlyA, onlyB, common)) :
    onlyA ∪ common = extractKeysList e1 "" ∧
    onlyB ∪ common = extractKeysList e2 "" ∧
    Disjoint onlyA onlyB ∧ Disjoint onlyA common ∧ Disjoint onlyB common := by
  simp only [compare_json_keys, load_json_file, extract_keys, Except.ok.injEq,
    Prod.mk.injEq] at h
  obtain ⟨ha, hb, hc⟩ := h
  subst ha hb hc
  refine ⟨Finset.sdiff_union_inter _ _, ?_, ?_, ?_, ?_⟩
  · rw [Finset.inter_comm]
    exact Finset.sdiff_union_inter _ _
  · simp only [Finset.disjoint_left, Finset.mem_sdiff]
    tauto
  · simp only [Finset.disjoint_left, Finset.mem_sdiff, Finset.mem_inter]
    tauto
  · simp only [Finset.disjoint_left, Finset.mem_sdiff, Finset.mem_inter]
    tauto

/-- C3 witness: the invariants at a concrete comparison of
`{"a":1,"b":2}` against `{"b":3}`. -/
theorem c3_witness :
    (extractKeysList [("a", Json.num 1), ("b", Json.num 2)] "" \
          extractKeysList [("b", Json.num 3)] "") ∪
        (extractKeysList [("a", Json.num 1), ("b", Json.num 2)] "" ∩
          extractKeysList [("b", Json.num 3)] "") =
      extractKeysList [("a", Json.num 1), ("b", Json.num 2)] "" ∧
    (extractKeysList [("b", Json.num 3)] "" \
          extractKeysList [("a", Json.num 1), ("b", Json.num 2)] "") ∪
        (extractKeysList [("a", Json.num 1), ("b", Json.num 2)] "" ∩
          extractKeysList [("b", Json.num 3)] "") =
      extractKeysList [("b", Json.num 3)] "" ∧
    Disjoint
      (extractKeysList [("a", Json.num 1), ("b", Json.num 2)] "" \
        extractKeysList [("b", Json.num 3)] "")
      (extractKeysList [("b", Json.num 3)] "" \
        extractKeysList [("a", Json.num 1), ("b", Json.num 2)] "") ∧
    Disjoint
      (extractKeysList [("a", Json.num 1), ("b", Json.num 2)] "" \
        extractKeysList [("b", Json.num 3)] "")
      (extractKeysList [("a", Json.num 1), ("b", Json.num 2)] "" ∩
        extractKeysList [("b", Json.num 3)] "") ∧
    Disjoint
      (extractKeysList [("b", Json.num 3)] "" \
        extractKeysList [("a", Json.num 1), ("b", Json.num 2)] "")
      (extractKeysList [("a", Json.num 1), ("b", Json.num 2)] "" ∩
        extractKeysList [("b", Json.num 3)] "") :=
  c3_comparison_invariants "en.json" "zh.json" _ _ _ _ _ rfl

/-- C7: an entry whose value is an empty object contributes no key path
at all — neither a leaf path for its own key nor nested paths; in
particular `extract_keys` on `{"a":{}}` returns the empty set. -/
theorem c7_empty_object_invisible (key : String) (rest : List (String × Json))
    (pfx : String) :
    extractKeysList ((key, Json.obj []) :: rest) pfx = extractKeysList rest pfx ∧
    extract_keys (Json.obj [("a", Json.obj [])]) "" = some (∅ : Finset String) := by
  constructor
  · simp [extractKeysList, extractKeysVal]
  · decide

/-- C8: an entry whose value is an array is an opaque leaf: it
contributes exactly its own full key, regardless of the array contents;
in particular `extract_keys` on `{"a":[1,2,3]}` returns `{"a"}`. -/
theorem c8_array_is_leaf (key : String) (elems : List Json)
    (rest : List (String × Json)) (pfx : String) :
    extractKeysList ((key, Json.arr elems) :: rest) pfx =
      insert (full_key_of pfx key) (extractKeysList rest pfx) ∧
    extract_keys (Json.obj [("a", Json.arr [Json.num 1, Json.num 2, Json.num 3])]) "" =
      some {"a"} := by
  constructor
  · simp [extractKeysList, extractKeysVal, Finset.insert_eq]
  · decide

/-- C9: in the tree `{"a.b":1, "a":{"b":2}}` a literal dot inside a key
makes two distinct leaves share the dotted key path `"a.b"`, so
`extract_keys` returns strictly fewer key paths than the tree has
leaves. -/
theorem c9_dotted_key_collision :
    leafAddrsList [("a.b", Json.num 1), ("a", Json.obj [("b", Json.num 2)])] =
      [["a.b"], ["a", "b"]] ∧
    (leafAddrsList [("a.b", Json.num 1), ("a", Json.obj [("b", Json.num 2)])]).map
        joinDot = ["a.b", "a.b"] ∧
    extractKeysList [("a.b", Json.num 1), ("a", Json.obj [("b", Json.num 2)])] "" =
      {"a.b"} ∧
    (extractKeysList [("a.b", Json.num 1), ("a", Json.obj [("b", Json.num 2)])] "").card <
      (leafAddrsList [("a.b", Json.num 1), ("a", Json.obj [("b", Json.num 2)])]).length :=
  ⟨rfl, rfl, by decide, by decide⟩

/-- C10: a syntactically valid JSON file whose top-level value is not an
object (here `[1,2]`, and the string `"hello"`) loads successfully, but
`extract_keys` fails on the loaded value (the non-object branch is
reachable at the public interface), and the whole comparison aborts with
the `AttributeError` outcome instead of returning a key set. -/
theorem c10_non_object_root_reachable :
    load_json_file "data.json" (FileContent.parsed (Json.arr [Json.num 1, Json.num 2])) =
      Except.ok (Json.arr [Json.num 1, Json.num 2]) ∧
    extract_keys (Json.arr [Json.num 1, Json.num 2]) "" = none ∧
    extract_keys (Json.str "hello") "" = none ∧
    compare_json_keys "data.json" "b.json"
        (FileContent.parsed (Json.arr [Json.num 1, Json.num 2]))
        (FileContent.parsed (Json.obj [])) = Except.error RunError.attrError :=
  ⟨rfl, rfl, rfl, rfl⟩

/-- C5: a failing input file in either position is fatal to the whole
comparison: the loader prints a message that names the offending file
(and, for parse errors, contains the parser diagnostic) and exits with
code 1; when it is the first file, `compare_json_keys` aborts with that
error for every content of the second file, and when it is the second
file, it aborts with that error for every already-loaded first tree —
no partial key set or partial comparison result is produced. -/
theorem c5_load_failure_fatal (p1 p2 : String) (c1 : FileContent)
    (h : isFailure c1 = true) :
    load_json_file p1 c1 = Except.error (load_error_msg p1 c1, 1) ∧
    List.IsInfix p1.data (load_error_msg p1 c1).data ∧
    (∀ diag, c1 = FileContent.malformed diag →
      List.IsInfix diag.data (load_error_msg p1 c1).data) ∧
    (∀ c2, compare_json_keys p1 p2 c1 c2 =
      Except.error (RunError.sysExit (load_error_msg p1 c1) 1)) ∧
    (∀ j, compare_json_keys p2 p1 (FileContent.parsed j) c1 =
      Except.error (RunError.sysExit (load_error_msg p1 c1) 1)) := by
  cases c1 with
  | missing =>
    refine ⟨rfl, ⟨("错误：文件 \x27").data, ("\x27 不存在").data, ?_⟩, ?_,
      fun c2 => rfl, fun j => rfl⟩
    · simp [load_error_msg, String.data_append]
    · intro diag hd
      cases hd
  | malformed d =>
    refine ⟨rfl, ⟨("错误：文件 \x27").data,
      ("\x27 不是有效的JSON格式: " ++ d).data, ?_⟩, ?_, fun c2 => rfl, fun j => rfl⟩
    · simp [load_error_msg, String.data_append]
    · intro diag hd
      cases hd
      exact ⟨("错误：文件 \x27" ++ p1 ++ "\x27 不是有效的JSON格式: ").data, [],
        by simp [load_error_msg, String.data_append]⟩
  | unreadable d =>
    refine ⟨rfl, ⟨("错误：读取文件 \x27").data,
      ("\x27 时发生错误: " ++ d).data, ?_⟩, ?_, fun c2 => rfl, fun j => rfl⟩
    · simp [load_error_msg, String.data_append]
    · intro diag hd
      cases hd
  | parsed j => simp [isFailure] at h

/-- C5 witness: a missing file at a concrete run, in the first position
and in the second position (after the first file parsed). -/
theorem c5_witness :
    load_json_file "en.json" FileContent.missing =
      Except.error (load_error_msg "en.json" FileContent.missing, 1) ∧
    List.IsInfix ("en.json").data (load_error_msg "en.json" FileContent.missing).data ∧
    compare_json_keys "en.json" "zh.json" FileContent.missing
        (FileContent.parsed (Json.obj [])) =
      Except.error (RunError.sysExit (load_error_msg "en.json" FileContent.missing) 1) ∧
    compare_json_keys "zh.json" "en.json"
        (FileContent.parsed (Json.obj [("a", Json.num 1)])) FileContent.missing =
      Except.error (RunError.sysExit (load_error_msg "en.json" FileContent.missing) 1) :=
  ⟨(c5_load_failure_fatal "en.json" "zh.json" FileContent.missing rfl).1,
   (c5_load_failure_fatal "en.json" "zh.json" FileContent.missing rfl).2.1,
   (c5_load_failure_fatal "en.json" "zh.json" FileContent.missing rfl).2.2.2.1
     (FileContent.parsed (Json.obj [])),
   (c5_load_failure_fatal "en.json" "zh.json" FileContent.missing rfl).2.2.2.2
     (Json.obj [("a", Json.num 1)])⟩

/-- Sorting strings is invariant under permutation of the input order:
`sorted()` applied to any two iteration orders of the same set agrees. -/
theorem insertionSort_eq_of_perm (l1 l2 : List String) (h : l1.Perm l2) :
    List.insertionSort (fun a b => a ≤ b) l1 =
      List.insertionSort (fun a b => a ≤ b) l2 :=
  List.eq_of_perm_of_sorted
    ((List.perm_insertionSort _ l1).trans (h.trans (List.perm_insertionSort _ l2).symm))
    (List.sorted_insertionSort _ l1) (List.sorted_insertionSort _ l2)

/-- C4: `print_comparison_results` does not sort: fed the iteration
order `["b", "a"]` (a legitimate order for the Python set `{"a","b"}`,
whose iteration order is hash-dependent), it emits the listing `"  b"`
before `"  a"` and produces a different report than it does for the
order `["a", "b"]`, so its output is not a function of the input sets;
`save_comparison_report`, which sorts at render time, produces identical
output for both orders; both renderers report the per-file total key
counts as `|only| + |common|`. -/
theorem c4_print_results_unsorted (f1 f2 : String)
    (o1 o2 c : List String) :
    (print_comparison_results "a.json" "b.json" ["b", "a"] [] []).drop 12 =
      ["  b", "  a", ""] ∧
    print_comparison_results "a.json" "b.json" ["b", "a"] [] [] ≠
      print_comparison_results "a.json" "b.json" ["a", "b"] [] [] ∧
    save_comparison_report "a.json" "b.json" ["b", "a"] [] [] =
      save_comparison_report "a.json" "b.json" ["a", "b"] [] [] ∧
    (print_comparison_results f1 f2 o1 o2 c).get? 4 =
      some ("  " ++ f1 ++ " 总key数: " ++ toString (o1.length + c.length)) ∧
    (save_comparison_report f1 f2 o1 o2 c).get? 4 =
      some ("  " ++ f1 ++ " 总key数: " ++ toString (o1.length + c.length)) := by
  refine ⟨by decide, by decide, ?_, rfl, rfl⟩
  simp only [save_comparison_report]
  rw [insertionSort_eq_of_perm ["b", "a"] ["a", "b"] (List.Perm.swap "a" "b" [])]
  rfl

/-- C6 counterexample: a run of `check_language_packs.py`'s `main` on two
valid JSON files whose key sets differ (`{"a":1}` vs `{}`) exits with
code 0, although the only-in-A set `{"a"}` is non-empty — its reporting
and exit logic is an empty stub; `main_backup.py`'s `main` exits 1 on
the same input. -/
theorem c6_counterexample :
    check_language_packs_main "a.json" "b.json"
        (FileContent.parsed (Json.obj [("a", Json.num 1)]))
        (FileContent.parsed (Json.obj [])) = 0 ∧
    extractKeysList [("a", Json.num 1)] "" \ extractKeysList [] "" = {"a"} ∧
    ({"a"} : Finset String) ≠ ∅ ∧
    main_backup_main "a.json" "b.json"
        (FileContent.parsed (Json.obj [("a", Json.num 1)]))
        (FileContent.parsed (Json.obj [])) = 1 :=
  ⟨rfl, by decide, by decide, by decide⟩

/-- C6 (amended): `main_backup.py`'s CLI exits 0 exactly when both
only-sets are empty, 1 when either is non-empty, 1 on any load failure
of either file, and 1 when either loaded top-level value is not an
object (the `AttributeError` failure path caught by `except Exception`);
`check_language_packs.py`'s `main` instead exits 0 on every successful
comparison, whatever the key differences. -/
theorem c6_exit_codes (p1 p2 : String) (e1 e2 : List (String × Json))
    (c1 c2 : FileContent) (j1 j2 : Json)
    (hf : isFailure c1 = true ∨ isFailure c2 = true)
    (hno : isObj j1 = false ∨ isObj j2 = false) :
    main_backup_main p1 p2 (FileContent.parsed (Json.obj e1))
        (FileContent.parsed (Json.obj e2)) =
      (if extractKeysList e1 "" \ extractKeysList e2 "" ≠ ∅ ∨
          extractKeysList e2 "" \ extractKeysList e1 "" ≠ ∅ then 1 else 0) ∧
    main_backup_main p1 p2 c1 c2 = 1 ∧
    main_backup_main p1 p2 (FileContent.parsed j1) (FileContent.parsed j2) = 1 ∧
    check_language_packs_main p1 p2 (FileContent.parsed (Json.obj e1))
      (FileContent.parsed (Json.obj e2)) = 0 := by
  refine ⟨rfl, ?_, ?_, rfl⟩
  · cases c1 <;> cases c2 <;> first | rfl | simp [isFailure] at hf
  · cases j1 <;> cases j2 <;> first | rfl | simp [isObj] at hno

/-- C6 witness: the amended theorem at a missing file and at a
non-object top-level value in either position. -/
theorem c6_witness :
    main_backup_main "a.json" "b.json" FileContent.missing
        (FileContent.parsed (Json.obj [])) = 1 ∧
    main_backup_main "a.json" "b.json" (FileContent.parsed (Json.str "hello"))
        (FileContent.parsed (Json.obj [])) = 1 ∧
    main_backup_main "a.json" "b.json" (FileContent.parsed (Json.obj []))
        (FileContent.parsed (Json.str "hello")) = 1 :=
  ⟨(c6_exit_codes "a.json" "b.json" [] [] FileContent.missing
      (FileContent.parsed (Json.obj [])) (Json.str "hello") (Json.obj [])
      (Or.inl rfl) (Or.inl rfl)).2.1,
   (c6_exit_codes "a.json" "b.json" [] [] FileContent.missing
      (FileContent.parsed (Json.obj [])) (Json.str "hello") (Json.obj [])
      (Or.inl rfl) (Or.inl rfl)).2.2.1,
   (c6_exit_codes "a.json" "b.json" [] [] FileContent.missing
      (FileContent.parsed (Json.obj [])) (Json.obj []) (Json.str "hello")
      (Or.inl rfl) (Or.inr rfl)).2.2.1⟩
